import Mathlib

/-
Verification of the Pokemon-Blaze-Bot automation engine.

The definitions below are a shallow embedding of the repository's two
source files (PBObotMac.py, the authoritative macOS variant, and
pbobotplus.py, the Windows variant).  External capabilities — screen
capture, OCR, key injection, clocks — are modelled as explicit inputs
(an `Option` image for a capture that may fail, a `String` for the OCR
result, rational timestamps for `time.time()` samples), exactly as the
specification's §6 treats them: out-of-scope collaborators with a
narrow contract.  Machine floats (`time.time()` values, difflib's
ratio) are modelled as rationals; `uint8` pixel channels as `ℕ`.
-/

namespace PBO

/-! ### Pixels, images and the encounter detector

`is_reddish_in_region` (PBObotMac.py lines 137-148).  A captured
region is a row-major list of rows of (R,G,B) pixels; a failed capture
(`capture_window_mac` returning `None`, lines 104-105) is `none`.
The source converts the RGB array to BGR (`cv2.cvtColor`, line 142),
swaps the threshold triples into BGR order (lines 145-146), and asks
whether `cv2.inRange` — an inclusive per-channel range test — marks
any pixel (lines 147-148). -/

/-- An (R,G,B) pixel with `uint8` channels modelled as naturals. -/
abbrev Pixel := ℕ × ℕ × ℕ

/-- A captured region image: rows of pixels. -/
abbrev Img := List (List Pixel)

/-- `cv2.cvtColor(..., COLOR_RGB2BGR)` on one pixel: swap first and third channel. -/
def rgb2bgr (p : Pixel) : Pixel := (p.2.2, p.2.1, p.1)

/-- One pixel of `cv2.inRange`: inclusive per-channel bounds test. -/
def inRangePix (lower upper p : Pixel) : Bool :=
  decide (lower.1 ≤ p.1 ∧ p.1 ≤ upper.1 ∧
          lower.2.1 ≤ p.2.1 ∧ p.2.1 ≤ upper.2.1 ∧
          lower.2.2 ≤ p.2.2 ∧ p.2.2 ≤ upper.2.2)

/-- PBObotMac.py lines 137-148.  `capture` is the result of
`capture_window_mac(window_id, window_bounds, region)`; `none` models the
`None` return when the window is minimized or permission is missing. -/
def is_reddish_in_region (capture : Option Img)
    (lower_thresh : Pixel := (150, 0, 0)) (upper_thresh : Pixel := (255, 100, 100)) : Bool :=
  match capture with
  | none => false
  | some region_img =>
    let np_img_bgr := region_img.map (fun row => row.map rgb2bgr)
    let lower : Pixel := (lower_thresh.2.2, lower_thresh.2.1, lower_thresh.1)
    let upper : Pixel := (upper_thresh.2.2, upper_thresh.2.1, upper_thresh.1)
    np_img_bgr.any (fun row => row.any (inRangePix lower upper))

/-! ### OCR name reading

`get_pokemon_name` (PBObotMac.py lines 153-161).  The grayscale
conversion, fixed binary threshold and `pytesseract.image_to_string`
call (lines 157-160) are a single external recognizer per spec §6;
they are modelled by the oracle `image_to_string : Img → List Char`.
The repository's own logic is the `None` guard (lines 155-156) and the
final `text.strip()` (line 161).  Python strings are `List Char`. -/

/-- The whitespace set stripped by Python's `str.strip()` (ASCII part). -/
def pyIsSpace (c : Char) : Bool :=
  c = ' ' || c = '\t' || c = '\n' || c = '\x0d' || c = '\x0b' || c = '\x0c'

/-- Python `s.strip()`: drop leading and trailing whitespace. -/
def pyStrip (l : List Char) : List Char :=
  ((l.dropWhile pyIsSpace).reverse.dropWhile pyIsSpace).reverse

/-- PBObotMac.py lines 153-161. -/
def get_pokemon_name (capture : Option Img) (image_to_string : Img → List Char) :
    List Char :=
  match capture with
  | none => []
  | some im => pyStrip (image_to_string im)

/-! ### Calibration rectangle normalization

`on_button_release` (PBObotMac.py lines 360-377): the recorded box is
`x1, x2 = sorted([start_x, end_x])`, `y1, y2 = sorted([start_y, end_y])`,
`(x1, y1, x2 - x1, y2 - y1)`.  Tk event coordinates are integers. -/

/-- The rectangle recorded on pointer release, lines 362-369. -/
def on_button_release (start_x start_y end_x end_y : ℤ) : ℤ × ℤ × ℤ × ℤ :=
  let x1 := min start_x end_x
  let x2 := max start_x end_x
  let y1 := min start_y end_y
  let y2 := max start_y end_y
  (x1, y1, x2 - x1, y2 - y1)

/-! ### Configuration load and startup defaults

`load_config` (PBObotMac.py lines 39-44) returns `{}` when the file
does not exist, else the parsed JSON dict; `BotGUI.__init__`
(lines 395-404) then fills each missing key with its default.  A
partially-present dict is a record of `Option` fields; `none` means
the key is absent. -/

structure ConfigData where
  pokeball_region : Option (List ℤ)
  name_region : Option (List ℤ)
  target_pokemons : Option (List String)
  preferred_move : Option String
  deriving DecidableEq

/-- PBObotMac.py lines 39-44.  `file` is the filesystem content:
`none` when `os.path.exists` is false, `some d` the `json.load` result. -/
def load_config (file : Option ConfigData) : ConfigData :=
  match file with
  | none => ⟨none, none, none, none⟩
  | some d => d

/-- PBObotMac.py lines 397-404: each `if key not in config` default fill. -/
def applyStartupDefaults (c : ConfigData) : ConfigData :=
  { pokeball_region := some (c.pokeball_region.getD [1380, 330, 60, 20])
    name_region := some (c.name_region.getD [1224, 339, 145, 20])
    target_pokemons := some (c.target_pokemons.getD ["Electivire", "Xurkitree", "Garchomp"])
    preferred_move := some (c.preferred_move.getD "1") }

/-! ### Starting the bot

`BotGUI.start_bot` (PBObotMac.py lines 587-631): refuse when no
window was found (lines 588-590); parse the eight region entry fields
with `int(...)`, refusing on `ValueError` (lines 595-610); otherwise
construct the two regions and launch `BotThread` (lines 620-631).
There is no other validation.  `parseIntEntry` models Python `int()`
on the plain decimal numerals relevant here. -/

inductive StartOutcome where
  | no_window
  | invalid_int
  | started (pb_region nm_region : ℤ × ℤ × ℤ × ℤ)
  deriving DecidableEq

def parseIntEntry (s : String) : Option ℤ :=
  match s.data with
  | [] => none
  | c :: cs =>
    let signed : ℤ × List Char :=
      if c = '-' then (-1, cs) else if c = '+' then (1, cs) else (1, c :: cs)
    if signed.2 ≠ [] ∧ signed.2.all Char.isDigit then
      some (signed.1 *
        ((signed.2.foldl (fun n d => 10 * n + (d.toNat - 48)) 0 : ℕ) : ℤ))
    else none

/-- PBObotMac.py lines 587-631, as a decision function of the window
state and the eight text-entry contents. -/
def start_bot (window_found : Bool)
    (pb_x pb_y pb_w pb_h nm_x nm_y nm_w nm_h : String) : StartOutcome :=
  if !window_found then .no_window
  else
    match parseIntEntry pb_x, parseIntEntry pb_y, parseIntEntry pb_w, parseIntEntry pb_h,
          parseIntEntry nm_x, parseIntEntry nm_y, parseIntEntry nm_w, parseIntEntry nm_h with
    | some a, some b, some c, some d, some e, some f, some g, some h =>
        .started (a, b, c, d) (e, f, g, h)
    | _, _, _, _, _, _, _, _ => .invalid_int

/-! ### Fuzzy name matching: difflib.SequenceMatcher

`BotThread._is_similar` (PBObotMac.py lines 306-307, identical to
`is_similar` in pbobotplus.py lines 119-120):
`SequenceMatcher(None, name.lower(), target.lower()).ratio() >= threshold`.

The embedding transcribes CPython difflib with no junk: the junk
argument is `None`, and the autojunk popularity heuristic only kicks
in for second strings of length ≥ 200, far above any creature name.
`find_longest_match` carries the Python `j2len` dict as a total map
`ℤ → ℕ` defaulting to 0 (the key `j-1` may be `-1`).  The inner loop of
Python iterates `j` over `b2j[a[i]]` — the ascending list of positions
of `a[i]` in `b` — skipping `j < blo` and breaking at `j ≥ bhi`; that
iteration is `occurrences b (a[i]) blo bhi` here.  With no junk the
trailing "extend over junk/non-junk" while-loops of CPython cannot
move (the dynamic-programming pass already returns a maximal run
within the window), so they are omitted.  In every update
`k ≤ i - alo + 1` and `k ≤ j - blo + 1`, so the `Nat` subtractions
`i + 1 - k`, `j + 1 - k` never truncate. -/

/-- Ascending positions `j ∈ [blo, bhi)` with `b[j] = c`: the slice of
`b2j[c]` that Python's inner loop actually visits. -/
def occurrences (b : List Char) (c : Char) (blo bhi : ℕ) : List ℕ :=
  (List.range' blo (bhi - blo)).filter (fun j => b.get? j == some c)

/-- One row (one value of `i`) of `find_longest_match`'s loop: fold the
visited `j`s, building the new `j2len` and updating the best block. -/
def flmRow (j2len : ℤ → ℕ) (i : ℕ) (js : List ℕ) (best : ℕ × ℕ × ℕ) :
    (ℕ × ℕ × ℕ) × (ℤ → ℕ) :=
  js.foldl
    (fun (st : (ℕ × ℕ × ℕ) × (ℤ → ℕ)) (j : ℕ) =>
      let k : ℕ := j2len ((j : ℤ) - 1) + 1
      let newj2len : ℤ → ℕ := Function.update st.2 (j : ℤ) k
      if st.1.2.2 < k then ((i + 1 - k, j + 1 - k, k), newj2len) else (st.1, newj2len))
    (best, fun _ => 0)

/-- difflib `SequenceMatcher.find_longest_match` restricted to
`a[alo:ahi]`, `b[blo:bhi]`, junk-free.  Returns `(besti, bestj, bestsize)`. -/
def find_longest_match (a b : List Char) (alo ahi blo bhi : ℕ) : ℕ × ℕ × ℕ :=
  ((List.range' alo (ahi - alo)).foldl
    (fun (st : (ℕ × ℕ × ℕ) × (ℤ → ℕ)) (i : ℕ) =>
      match a.get? i with
      | some c => flmRow st.2 i (occurrences b c blo bhi) st.1
      | none => st)
    ((alo, blo, 0), fun _ => 0)).1

/-- Total size of all matching blocks of `get_matching_blocks`,
the `matches` of `ratio`.  CPython recurses on both sides of each
longest match; the fuel argument bounds that recursion depth —
`a.length + b.length + 1` always suffices, since every recursive call
strictly shrinks the combined interval. -/
def matching_total (a b : List Char) : ℕ → ℕ → ℕ → ℕ → ℕ → ℕ
  | _alo, _ahi, _blo, _bhi, 0 => 0
  | alo, ahi, blo, bhi, fuel + 1 =>
    let m := find_longest_match a b alo ahi blo bhi
    if m.2.2 = 0 then 0
    else
      matching_total a b alo m.1 blo m.2.1 fuel + m.2.2 +
        matching_total a b (m.1 + m.2.2) ahi (m.2.1 + m.2.2) bhi fuel

/-- difflib `SequenceMatcher.ratio()`: `2*M / (len(a)+len(b))`, and 1
when both strings are empty (`_calculate_ratio`). -/
def similarity (a b : List Char) : ℚ :=
  let m_total := matching_total a b 0 a.length 0 b.length (a.length + b.length + 1)
  if a.length + b.length = 0 then 1
  else 2 * (m_total : ℚ) / ((a.length : ℚ) + (b.length : ℚ))

/-- Python `str.lower()` (ASCII names). -/
def pyLower (s : String) : List Char := s.data.map Char.toLower

/-- PBObotMac.py lines 306-307 / pbobotplus.py lines 119-120. -/
def is_similar (name target : String) (threshold : ℚ := 7/10) : Bool :=
  decide (similarity (pyLower name) (pyLower target) ≥ threshold)

/-! ### The automation loop: `BotThread.run`

PBObotMac.py lines 247-289, one iteration of the `while` loop as a
state-transition function.  External observations of a tick are
inputs: the pause flag as sampled at line 256, the result of
`is_reddish_in_region` (line 262, capture is external), the string
produced by `get_pokemon_name` (line 268), and the two `time.time()`
samples (line 264 and line 280) as rationals.  Side effects — key
injection, beeps, sleeps — are recorded as an event trace in source
order; `self._log(...)` calls are omitted from the trace (they touch
no state the claims mention).  `time.sleep` durations and key hold
times appear as rational event payloads. -/

/-- Observable side effects of one loop iteration, in source order. -/
inductive Event where
  | pressKey (key : String) (hold_time : ℚ)
  | encounterCheck (result : Bool)
  | ocrName (name : String)
  | beep (message : String)
  | watchdogCheck
  | sleepFor (seconds : ℚ)
  deriving DecidableEq

/-- Loop-local state of `BotThread.run` (lines 249-253): the encounter
counter, the two watchdog timestamps, and `last_dir[0]`. -/
structure BotState where
  encounter_count : ℕ
  last_encounter_time : ℚ
  next_check_time : ℚ
  last_dir : ℕ
  deriving DecidableEq

/-- Lines 249-253: state at loop entry, `t0` being the `time.time()`
sample of line 251. -/
def initState (t0 : ℚ) : BotState :=
  { encounter_count := 0, last_encounter_time := t0, next_check_time := t0 + 10,
    last_dir := 0 }

/-- External observations consumed by one tick. -/
structure TickInput where
  paused : Bool
  reddish : Bool
  name : String
  t_enc : ℚ
  t_wd : ℚ
  deriving DecidableEq

/-- Result of one tick: next state, emitted events, and whether the
iteration ended in `break` (line 274). -/
structure TickResult where
  state : BotState
  events : List Event
  broke : Bool
  deriving DecidableEq

/-- `move_in_bushes` (PBObotMac.py lines 207-216): key to press and
new value of `last_dir[0]`. -/
def move_in_bushes (last_dir : ℕ) : String × ℕ :=
  if last_dir = 0 then ("right_arrow", 1) else ("left_arrow", 0)

/-- `defeat_wild_pokemon`'s key choice (lines 296-303):
`move_map.get(self.move_choice, "1")`. -/
def defeat_key (move_choice : String) : String :=
  if move_choice = "1" ∨ move_choice = "2" ∨ move_choice = "3" ∨
     move_choice = "4" ∨ move_choice = "r" then move_choice else "1"

/-- Lines 280-285: the watchdog check, shared by both fall-through
paths.  `evs` are the events already emitted earlier in the tick;
`now` is the `time.time()` sample of line 280.  The trailing
`time.sleep(0.1)` of line 287 is included. -/
def watchdogPart (s : BotState) (evs : List Event) (now : ℚ) : TickResult :=
  let evs := evs ++ [Event.watchdogCheck]
  if now ≥ s.next_check_time then
    let evs := if now - s.last_encounter_time ≥ 10
      then evs ++ [Event.beep "No encounters beep"] else evs
    { state := { s with next_check_time := now + 10 },
      events := evs ++ [Event.sleepFor (1/10)], broke := false }
  else
    { state := s, events := evs ++ [Event.sleepFor (1/10)], broke := false }

/-- One iteration of the `while` loop of `BotThread.run`
(lines 255-287), entered with `stop_event` unset. -/
def tick (target_pokemons : List String) (move_choice : String)
    (s : BotState) (i : TickInput) : TickResult :=
  if i.paused then
    { state := s, events := [Event.sleepFor (2/10)], broke := false }
  else
    let mv := move_in_bushes s.last_dir
    let s1 : BotState := { s with last_dir := mv.2 }
    let ev0 : List Event := [Event.pressKey mv.1 (1/4)]
    if i.reddish then
      let s2 : BotState :=
        { s1 with encounter_count := s1.encounter_count + 1,
                  last_encounter_time := i.t_enc,
                  next_check_time := i.t_enc + 10 }
      let ev1 := ev0 ++ [Event.encounterCheck true, Event.ocrName i.name]
      if target_pokemons.any (fun t => is_similar i.name t) then
        { state := s2,
          events := ev1 ++
            [Event.beep ("Target Pokémon " ++ i.name ++ " encountered! Stopping.")],
          broke := true }
      else
        watchdogPart s2
          (ev1 ++ [Event.pressKey (defeat_key move_choice) (1/10), Event.sleepFor (1/10)])
          i.t_wd
    else
      watchdogPart s1 (ev0 ++ [Event.encounterCheck false]) i.t_wd

/-- The loop state after `n` ticks, for a given stream of tick
observations (the run continues while `stop_event` stays unset and no
`break` occurs; a tick that breaks has no successor in the real loop,
so statements about `loopStates` at later indices are vacuous there). -/
def loopStates (target_pokemons : List String) (move_choice : String)
    (t0 : ℚ) (inp : ℕ → TickInput) : ℕ → BotState
  | 0 => initState t0
  | n + 1 => (tick target_pokemons move_choice
      (loopStates target_pokemons move_choice t0 inp n) (inp n)).state

/-- The tick observations of a run in which the detector reports no
encounter and the operator never pauses; `τ` is the shared
`time.time()` sample of the tick. -/
def noEncInput (τ : ℚ) : TickInput :=
  { paused := false, reddish := false, name := "", t_enc := τ, t_wd := τ }

/-- State before tick `n` of a no-encounter run started at `t0` with
tick-time sequence `t`. -/
def wdState (target_pokemons : List String) (move_choice : String)
    (t0 : ℚ) (t : ℕ → ℚ) (n : ℕ) : BotState :=
  loopStates target_pokemons move_choice t0 (fun k => noEncInput (t k)) n

/-- The "no encounters" audible alert fires on tick `n` of a
no-encounter run. -/
def wdAlert (target_pokemons : List String) (move_choice : String)
    (t0 : ℚ) (t : ℕ → ℚ) (n : ℕ) : Prop :=
  Event.beep "No encounters beep" ∈
    (tick target_pokemons move_choice
      (wdState target_pokemons move_choice t0 t n) (noEncInput (t n))).events

/-- `next_check_time` before tick `n` of a no-encounter run. -/
def wdNext (target_pokemons : List String) (move_choice : String)
    (t0 : ℚ) (t : ℕ → ℚ) (n : ℕ) : ℚ :=
  (wdState target_pokemons move_choice t0 t n).next_check_time

/-! ## Theorems -/

/-- C7: for every press-drag-release gesture with press point (x1,y1)
and release point (x2,y2), the recorded rectangle is
(min x, min y, |dx|, |dy|), and any two gestures whose endpoint pairs
are swaps of each other produce identical normalized rectangles. -/
theorem claim_C7 (start_x start_y end_x end_y : ℤ) :
    on_button_release start_x start_y end_x end_y =
      (min start_x end_x, min start_y end_y, |end_x - start_x|, |end_y - start_y|) ∧
    on_button_release end_x start_y start_x end_y =
      on_button_release start_x start_y end_x end_y ∧
    on_button_release start_x end_y end_x start_y =
      on_button_release start_x start_y end_x end_y ∧
    on_button_release end_x end_y start_x start_y =
      on_button_release start_x start_y end_x end_y := by
  unfold on_button_release
  refine ⟨?_, ?_, ?_, ?_⟩ <;>
    simp [min_comm, max_comm, max_sub_min_eq_abs, abs_sub_comm]

/-- C8: when the capture of the indicator region fails (the capture
provider returns none, e.g. the window is minimized), the encounter
detector returns false for every threshold configuration; being a
total function, it raises no error. -/
theorem claim_C8 (lower_thresh upper_thresh : Pixel) :
    is_reddish_in_region none lower_thresh upper_thresh = false := rfl

/-- C10: when the configuration file does not exist, `load_config`
returns the empty record (no error raised), and the startup default
fill then populates every field with its built-in default. -/
theorem claim_C10 :
    load_config none = { pokeball_region := none, name_region := none,
                         target_pokemons := none, preferred_move := none } ∧
    applyStartupDefaults (load_config none) =
      { pokeball_region := some [1380, 330, 60, 20],
        name_region := some [1224, 339, 145, 20],
        target_pokemons := some ["Electivire", "Xurkitree", "Garchomp"],
        preferred_move := some "1" } :=
  ⟨rfl, rfl⟩

/-- C4 (claim refuted by the code): with the window found and the
pokeball region entered as x=1380, y=330, w=0, h=20 — a degenerate
zero-width region — `start_bot` does not refuse: it launches the
automation loop with that region.  The only refusals in the code are
a missing window and a non-integer entry field. -/
theorem claim_C4_code_behavior :
    start_bot true "1380" "330" "0" "20" "1224" "339" "145" "20" =
      StartOutcome.started (1380, 330, 0, 20) (1224, 339, 145, 20) := by
  decide

theorem head_all_dropWhile (p : Char → Bool) :
    ∀ l : List Char, ((l.dropWhile p).head?.all fun c => !p c) = true
  | [] => rfl
  | c :: l => by
    by_cases h : p c
    · simpa [List.dropWhile_cons, h] using head_all_dropWhile p l
    · simp [List.dropWhile_cons, h]

theorem getLast_all_dropWhile (p : Char → Bool) :
    ∀ l : List Char, (l.getLast?.all fun c => !p c) = true →
      ((l.dropWhile p).getLast?.all fun c => !p c) = true
  | [] => fun _ => rfl
  | c :: l => by
    by_cases h : p c
    · cases l with
      | nil => intro _; simp [List.dropWhile_cons, h, List.dropWhile_nil]
      | cons b l2 =>
        intro hl
        rw [List.getLast?_cons_cons] at hl
        simpa [List.dropWhile_cons, h] using getLast_all_dropWhile p (b :: l2) hl
    · intro hl
      simpa [List.dropWhile_cons, h] using hl

theorem pyStrip_head_all (l : List Char) :
    ((pyStrip l).head?.all fun c => !pyIsSpace c) = true := by
  unfold pyStrip
  rw [List.head?_reverse]
  apply getLast_all_dropWhile
  rw [List.getLast?_reverse]
  exact head_all_dropWhile pyIsSpace l

theorem pyStrip_getLast_all (l : List Char) :
    ((pyStrip l).getLast?.all fun c => !pyIsSpace c) = true := by
  unfold pyStrip
  rw [List.getLast?_reverse]
  exact head_all_dropWhile pyIsSpace (l.dropWhile pyIsSpace).reverse

/-- C9: the recognized creature name never has leading or trailing
whitespace (for any recognizer output on any captured image), and it
is the empty string when the capture of the name region fails; the
reading operation is total, so no error is raised. -/
theorem claim_C9 (image_to_string : Img → List Char) (img : Img) :
    get_pokemon_name none image_to_string = [] ∧
    ((get_pokemon_name (some img) image_to_string).head?.all
        fun c => !pyIsSpace c) = true ∧
    ((get_pokemon_name (some img) image_to_string).getLast?.all
        fun c => !pyIsSpace c) = true :=
  ⟨rfl, pyStrip_head_all (image_to_string img), pyStrip_getLast_all (image_to_string img)⟩

theorem similarity_nil_left (b : List Char) :
    similarity [] b = if b.length = 0 then 1 else 0 := by
  unfold similarity matching_total
  simp only [List.length_nil, Nat.zero_add, find_longest_match, Nat.sub_zero,
    List.range'_zero, List.foldl_nil]
  by_cases hb : b.length = 0
  · simp [hb]
  · simp [hb]

theorem is_similar_empty_name (t : String) (h : t ≠ "") : is_similar "" t = false := by
  have hb : (pyLower t).length ≠ 0 := by
    intro hlen
    apply h
    have hd : t.data = [] :=
      List.eq_nil_of_length_eq_zero (by simpa [pyLower] using hlen)
    cases t
    simp_all
  unfold is_similar
  rw [show pyLower "" = [] from rfl, similarity_nil_left, if_neg hb]
  rw [decide_eq_false_iff_not]
  intro hab
  norm_num at hab

/-- C5 as stated is refuted by the code: the target list [""] is
non-empty, yet against the empty recognized text the matcher declares
a match — SequenceMatcher gives two empty strings ratio 1, which is
not below the 0.7 threshold. -/
theorem claim_C5_counterexample :
    ((([""] : List String) ≠ []) ∧
      ([""].any fun t => is_similar "" t) = true) := by
  refine ⟨by simp, ?_⟩
  have h1 : is_similar "" "" = true := by
    unfold is_similar
    rw [show pyLower "" = [] from rfl, similarity_nil_left]
    simp only [List.length_nil, if_pos rfl]
    rw [decide_eq_true_iff]
    norm_num
  simp [h1]

/-- C5 (amended): for every target list all of whose candidates are
non-empty strings, the empty recognized text matches no candidate —
its similarity ratio to each such candidate is 0, below the 0.7
threshold.  (An empty-string candidate would instead match, with
ratio 1.) -/
theorem claim_C5 (target_pokemons : List String)
    (h : ∀ t ∈ target_pokemons, t ≠ "") :
    (target_pokemons.any fun t => is_similar "" t) = false := by
  rw [List.any_eq_false]
  intro t ht
  simp [is_similar_empty_name t (h t ht)]

/-- Witness for C5: a concrete non-empty target list of non-empty
names on which the matcher declares no match for empty text. -/
theorem claim_C5_witness :
    (∀ t ∈ ["Electivire"], t ≠ "") ∧
      ((["Electivire"].any fun t => is_similar "" t) = false) :=
  ⟨by decide, claim_C5 ["Electivire"] (by decide)⟩

/-- C1: for every captured indicator-region image, the encounter
detector returns true iff at least one pixel lies within the inclusive
per-channel bounds lower (150,0,0) and upper (255,100,100) on all
three RGB channels; in particular an image containing a pixel exactly
(150,0,0) yields true, and an image whose every pixel is strictly
outside the range on some channel yields false. -/
theorem claim_C1 (img : Img) :
    (is_reddish_in_region (some img) = true ↔
      ∃ row ∈ img, ∃ p ∈ row,
        (150 ≤ p.1 ∧ p.1 ≤ 255) ∧ (0 ≤ p.2.1 ∧ p.2.1 ≤ 100) ∧
          (0 ≤ p.2.2 ∧ p.2.2 ≤ 100)) ∧
    ((∃ row ∈ img, ((150, 0, 0) : Pixel) ∈ row) →
      is_reddish_in_region (some img) = true) ∧
    ((∀ row ∈ img, ∀ p ∈ row,
        p.1 < 150 ∨ 255 < p.1 ∨ 100 < p.2.1 ∨ 100 < p.2.2) →
      is_reddish_in_region (some img) = false) := by
  have key : is_reddish_in_region (some img) = true ↔
      ∃ row ∈ img, ∃ p ∈ row,
        (150 ≤ p.1 ∧ p.1 ≤ 255) ∧ (0 ≤ p.2.1 ∧ p.2.1 ≤ 100) ∧
          (0 ≤ p.2.2 ∧ p.2.2 ≤ 100) := by
    simp only [is_reddish_in_region, List.any_eq_true, List.mem_map,
      inRangePix, decide_eq_true_eq]
    constructor
    · rintro ⟨row2, ⟨row, hrow, rfl⟩, hx⟩
      obtain ⟨p2, hp2, hcond⟩ := hx
      rw [List.mem_map] at hp2
      obtain ⟨p, hp, rfl⟩ := hp2
      refine ⟨row, hrow, p, hp, ?_⟩
      simp only [rgb2bgr] at hcond
      omega
    · rintro ⟨row, hrow, p, hp, hcond⟩
      refine ⟨row.map rgb2bgr, ⟨row, hrow, rfl⟩, rgb2bgr p,
        List.mem_map_of_mem rgb2bgr hp, ?_⟩
      simp only [rgb2bgr]
      omega
  refine ⟨key, ?_, ?_⟩
  · rintro ⟨row, hrow, hmem⟩
    exact key.mpr ⟨row, hrow, (150, 0, 0), hmem, by decide⟩
  · intro hall
    rw [Bool.eq_false_iff]
    intro htrue
    obtain ⟨row, hrow, p, hp, hcond⟩ := key.mp htrue
    have := hall row hrow p hp
    omega

/-- Witness for C1: a one-pixel image at exactly the lower bound is
classified as an active encounter. -/
theorem claim_C1_witness :
    is_reddish_in_region (some [[(150, 0, 0)]]) = true :=
  (claim_C1 [[(150, 0, 0)]]).2.1
    ⟨[(150, 0, 0)], List.mem_singleton.mpr rfl, List.mem_singleton.mpr rfl⟩

/-- C6: across any N consecutive non-paused ticks the injected
directional keys strictly alternate, starting from the fixed initial
direction (`last_dir = 0` at loop start, so tick 0 presses the right
arrow): every tick's first event is the arrow key opposite to the
stored direction, the stored bit is toggled, and at tick `n` the key
is right for even `n` and left for odd `n`. -/
theorem claim_C6 (target_pokemons : List String) (move_choice : String)
    (t0 : ℚ) (inp : ℕ → TickInput) (hp : ∀ n, (inp n).paused = false) :
    (∀ (s : BotState) (i : TickInput), i.paused = false →
      (tick target_pokemons move_choice s i).events.head? =
          some (Event.pressKey
            (if s.last_dir = 0 then "right_arrow" else "left_arrow") (1/4)) ∧
        (tick target_pokemons move_choice s i).state.last_dir =
          (if s.last_dir = 0 then 1 else 0)) ∧
    (∀ n, (loopStates target_pokemons move_choice t0 inp n).last_dir = n % 2) ∧
    (∀ n, (tick target_pokemons move_choice
        (loopStates target_pokemons move_choice t0 inp n) (inp n)).events.head? =
      some (Event.pressKey
        (if n % 2 = 0 then "right_arrow" else "left_arrow") (1/4))) := by
  have step : ∀ (s : BotState) (i : TickInput), i.paused = false →
      (tick target_pokemons move_choice s i).events.head? =
          some (Event.pressKey
            (if s.last_dir = 0 then "right_arrow" else "left_arrow") (1/4)) ∧
        (tick target_pokemons move_choice s i).state.last_dir =
          (if s.last_dir = 0 then 1 else 0) := by
    intro s i hpi
    unfold tick move_in_bushes watchdogPart
    rw [hpi]
    by_cases hd : s.last_dir = 0 <;> simp only [hd, if_true, if_false] <;>
      split_ifs <;> simp_all
  have dirs : ∀ n, (loopStates target_pokemons move_choice t0 inp n).last_dir = n % 2 := by
    intro n
    induction n with
    | zero => rfl
    | succ n ih =>
      have h := (step (loopStates target_pokemons move_choice t0 inp n) (inp n) (hp n)).2
      show (tick target_pokemons move_choice
        (loopStates target_pokemons move_choice t0 inp n) (inp n)).state.last_dir = (n + 1) % 2
      rw [h]
      simp only [ih]
      by_cases h2 : n % 2 = 0
      · rw [if_pos h2]
        omega
      · rw [if_neg h2]
        omega
  refine ⟨step, dirs, ?_⟩
  intro n
  rw [(step (loopStates target_pokemons move_choice t0 inp n) (inp n) (hp n)).1, dirs n]

/-- Witness for C6: a concrete pause-free run in which the direction
bit after one tick is 1 (a right-arrow press happened first). -/
theorem claim_C6_witness :
    ((fun _ : ℕ => noEncInput 0) 0).paused = false ∧
      (loopStates [] "1" 0 (fun _ => noEncInput 0) 1).last_dir = 1 % 2 :=
  ⟨rfl, (claim_C6 [] "1" 0 (fun _ => noEncInput 0) (fun _ => rfl)).2.1 1⟩

theorem is_similar_self_x : is_similar "x" "x" = true := by
  have hsim : similarity (pyLower "x") (pyLower "x") =
      2 * ((1 : ℕ) : ℚ) / (((1 : ℕ) : ℚ) + ((1 : ℕ) : ℚ)) := rfl
  rw [show is_similar "x" "x" =
      decide (similarity (pyLower "x") (pyLower "x") ≥ 7/10) from rfl]
  rw [decide_eq_true_iff, hsim]
  norm_num

theorem watchdogPart_events_shape (s : BotState) (evs : List Event) (now : ℚ) :
    ∃ l3, (watchdogPart s evs now).events = evs ++ Event.watchdogCheck :: l3 := by
  unfold watchdogPart
  split_ifs
  · exact ⟨[Event.beep "No encounters beep", Event.sleepFor (1/10)], by simp⟩
  · exact ⟨[Event.sleepFor (1/10)], by simp⟩
  · exact ⟨[Event.sleepFor (1/10)], by simp⟩

theorem tick_match_skips_watchdog (target_pokemons : List String)
    (move_choice : String) (s : BotState) (i : TickInput)
    (hp : i.paused = false) (hr : i.reddish = true)
    (hm : (target_pokemons.any fun t => is_similar i.name t) = true) :
    (tick target_pokemons move_choice s i).broke = true ∧
      Event.watchdogCheck ∉ (tick target_pokemons move_choice s i).events := by
  constructor <;> simp [tick, hp, hr, hm]

/-- C3 as stated is refuted by the code: on the tick on which a target
match occurs, the `break` of line 274 exits the loop before the
watchdog code of lines 280-285 runs, so the watchdog check is skipped
on that tick.  Concretely: target list ["x"], recognized name "x". -/
theorem claim_C3_counterexample :
    (tick ["x"] "1" (initState 0)
        { paused := false, reddish := true, name := "x", t_enc := 1, t_wd := 1 }).broke =
        true ∧
      Event.watchdogCheck ∉
        (tick ["x"] "1" (initState 0)
          { paused := false, reddish := true, name := "x", t_enc := 1, t_wd := 1 }).events := by
  exact tick_match_skips_watchdog ["x"] "1" (initState 0)
    { paused := false, reddish := true, name := "x", t_enc := 1, t_wd := 1 }
    rfl rfl (by simp [is_similar_self_x])

/-- C3 (amended): on every non-paused, non-stopped tick except a tick
on which a target match terminates the loop, the watchdog check is
evaluated after the encounter-check branch within that same tick; on
a target-match tick the break skips it. -/
theorem claim_C3 (target_pokemons : List String) (move_choice : String)
    (s : BotState) (i : TickInput) (hp : i.paused = false) :
    ((i.reddish = true →
        (target_pokemons.any fun t => is_similar i.name t) = false) →
      ∃ l1 l2 l3, (tick target_pokemons move_choice s i).events =
        l1 ++ Event.encounterCheck i.reddish :: (l2 ++ Event.watchdogCheck :: l3)) ∧
    (i.reddish = true →
      (target_pokemons.any fun t => is_similar i.name t) = true →
      (tick target_pokemons move_choice s i).broke = true ∧
        Event.watchdogCheck ∉ (tick target_pokemons move_choice s i).events) := by
  constructor
  · intro hnm
    by_cases hr : i.reddish
    · have hm := hnm hr
      obtain ⟨l3, h3⟩ := watchdogPart_events_shape
        { s with last_dir := (move_in_bushes s.last_dir).2,
                 encounter_count := s.encounter_count + 1,
                 last_encounter_time := i.t_enc, next_check_time := i.t_enc + 10 }
        ([Event.pressKey (move_in_bushes s.last_dir).1 (1/4)] ++
          [Event.encounterCheck true, Event.ocrName i.name] ++
          [Event.pressKey (defeat_key move_choice) (1/10), Event.sleepFor (1/10)])
        i.t_wd
      refine ⟨[Event.pressKey (move_in_bushes s.last_dir).1 (1/4)],
        [Event.ocrName i.name, Event.pressKey (defeat_key move_choice) (1/10),
          Event.sleepFor (1/10)], l3, ?_⟩
      simp only [tick, hp, Bool.false_eq_true, if_false, hr, if_true, hm, hr] at h3 ⊢
      rw [h3]
      simp
    · obtain ⟨l3, h3⟩ := watchdogPart_events_shape
        { s with last_dir := (move_in_bushes s.last_dir).2 }
        ([Event.pressKey (move_in_bushes s.last_dir).1 (1/4)] ++
          [Event.encounterCheck false]) i.t_wd
      refine ⟨[Event.pressKey (move_in_bushes s.last_dir).1 (1/4)], [], l3, ?_⟩
      have hr' : i.reddish = false := by simp_all
      simp only [tick, hp, Bool.false_eq_true, if_false, hr', if_true] at h3 ⊢
      rw [h3]
      simp
  · intro hr hm
    exact tick_match_skips_watchdog target_pokemons move_choice s i hp hr hm

/-- Witness for C3 (amended): on a concrete non-paused, no-encounter
tick the event trace decomposes with the watchdog check after the
encounter check. -/
theorem claim_C3_witness :
    ∃ l1 l2 l3, (tick [] "1" (initState 0) (noEncInput 0)).events =
      l1 ++ Event.encounterCheck (noEncInput 0).reddish ::
        (l2 ++ Event.watchdogCheck :: l3) :=
  (claim_C3 [] "1" (initState 0) (noEncInput 0) rfl).1
    (fun h => absurd h (by decide))

theorem tick_noEnc (target_pokemons : List String) (move_choice : String)
    (s : BotState) (τ : ℚ) :
    (tick target_pokemons move_choice s (noEncInput τ)).broke = false ∧
    (tick target_pokemons move_choice s (noEncInput τ)).state.last_encounter_time =
      s.last_encounter_time ∧
    (tick target_pokemons move_choice s (noEncInput τ)).state.next_check_time =
      (if τ ≥ s.next_check_time then τ + 10 else s.next_check_time) ∧
    (Event.beep "No encounters beep" ∈
        (tick target_pokemons move_choice s (noEncInput τ)).events ↔
      (τ ≥ s.next_check_time ∧ τ - s.last_encounter_time ≥ 10)) := by
  unfold tick noEncInput watchdogPart move_in_bushes
  by_cases h1 : s.last_dir = 0 <;>
    by_cases h2 : τ ≥ s.next_check_time <;>
      by_cases h3 : τ - s.last_encounter_time ≥ 10 <;>
        simp [h1, h2, h3, ge_iff_le, not_le]

theorem wdState_last_enc (target_pokemons : List String) (move_choice : String)
    (t0 : ℚ) (t : ℕ → ℚ) :
    ∀ n, (wdState target_pokemons move_choice t0 t n).last_encounter_time = t0
  | 0 => rfl
  | n + 1 => by
    show (tick target_pokemons move_choice
        (wdState target_pokemons move_choice t0 t n)
        (noEncInput (t n))).state.last_encounter_time = t0
    rw [(tick_noEnc target_pokemons move_choice
        (wdState target_pokemons move_choice t0 t n) (t n)).2.1]
    exact wdState_last_enc target_pokemons move_choice t0 t n

theorem wdNext_zero (target_pokemons : List String) (move_choice : String)
    (t0 : ℚ) (t : ℕ → ℚ) : wdNext target_pokemons move_choice t0 t 0 = t0 + 10 := rfl

theorem wdNext_succ (target_pokemons : List String) (move_choice : String)
    (t0 : ℚ) (t : ℕ → ℚ) (n : ℕ) :
    wdNext target_pokemons move_choice t0 t (n + 1) =
      (if t n ≥ wdNext target_pokemons move_choice t0 t n then t n + 10
       else wdNext target_pokemons move_choice t0 t n) :=
  (tick_noEnc target_pokemons move_choice
    (wdState target_pokemons move_choice t0 t n) (t n)).2.2.1

theorem wdAlert_iff (target_pokemons : List String) (move_choice : String)
    (t0 : ℚ) (t : ℕ → ℚ) (n : ℕ) :
    wdAlert target_pokemons move_choice t0 t n ↔
      (t n ≥ wdNext target_pokemons move_choice t0 t n ∧ t n - t0 ≥ 10) := by
  unfold wdAlert
  rw [(tick_noEnc target_pokemons move_choice
      (wdState target_pokemons move_choice t0 t n) (t n)).2.2.2,
    wdState_last_enc]
  rfl

theorem wdNext_le_mono (target_pokemons : List String) (move_choice : String)
    (t0 : ℚ) (t : ℕ → ℚ) :
    ∀ m n : ℕ, m ≤ n →
      wdNext target_pokemons move_choice t0 t m ≤
        wdNext target_pokemons move_choice t0 t n := by
  intro m n hmn
  induction n with
  | zero => rw [Nat.le_zero.mp hmn]
  | succ n ih =>
    rcases Nat.lt_or_ge m (n + 1) with h | h
    · have h1 := ih (Nat.lt_succ_iff.mp h)
      rw [wdNext_succ]
      split_ifs with h2
      · linarith
      · exact h1
    · rw [Nat.le_antisymm hmn h]

theorem wdNext_ge (target_pokemons : List String) (move_choice : String)
    (t0 : ℚ) (t : ℕ → ℚ) :
    ∀ n, t0 + 10 ≤ wdNext target_pokemons move_choice t0 t n := by
  intro n
  induction n with
  | zero => rw [wdNext_zero]
  | succ n ih =>
    rw [wdNext_succ]
    split_ifs with h
    · linarith
    · exact ih

theorem wdNext_stable (target_pokemons : List String) (move_choice : String)
    (t0 : ℚ) (t : ℕ → ℚ) (n : ℕ) :
    ∀ m, n ≤ m →
      (∀ k, n ≤ k → k < m → t k < wdNext target_pokemons move_choice t0 t n) →
      wdNext target_pokemons move_choice t0 t m =
        wdNext target_pokemons move_choice t0 t n := by
  intro m
  induction m with
  | zero => intro h _; rw [Nat.le_zero.mp h]
  | succ m ih =>
    intro hnm hk
    rcases Nat.lt_or_ge n (m + 1) with h | h
    · have hm : n ≤ m := Nat.lt_succ_iff.mp h
      have heq := ih hm (fun k h1 h2 => hk k h1 (Nat.lt_succ_of_lt h2))
      rw [wdNext_succ, heq, if_neg]
      exact not_le.mpr (hk m hm (Nat.lt_succ_self m))
    · rw [Nat.le_antisymm hnm h]

/-- C2: in a no-encounter run started at `t0`, (a) no watchdog alert
fires at a tick earlier than `t0+10`; (b) the alert fires at the first
tick whose time reaches `t0+10` — so at `t0+10` itself when a tick
occurs then; (c) two alert ticks are always at least 10 s apart (at
most one alert per 10-second interval); (d) after an alert at time
`t n`, the alert fires again at the first tick reaching `t n + 10` —
so at `t0+20` when the first fired at `t0+10`; (e) whenever the
watchdog check triggers, `next_check_time` is advanced to `now + 10`
regardless of whether the alert fired. -/
theorem claim_C2 (target_pokemons : List String) (move_choice : String)
    (t0 : ℚ) (t : ℕ → ℚ) (hmono : ∀ m n : ℕ, m ≤ n → t m ≤ t n)
    (h0 : t0 ≤ t 0) :
    (∀ n, wdAlert target_pokemons move_choice t0 t n → t0 + 10 ≤ t n) ∧
    (∀ N, t0 + 10 ≤ t N → (∀ m, m < N → t m < t0 + 10) →
      wdAlert target_pokemons move_choice t0 t N) ∧
    (∀ n m, n < m → wdAlert target_pokemons move_choice t0 t n →
      wdAlert target_pokemons move_choice t0 t m → t n + 10 ≤ t m) ∧
    (∀ n m, n < m → wdAlert target_pokemons move_choice t0 t n →
      t n + 10 ≤ t m → (∀ k, n < k → k < m → t k < t n + 10) →
      wdAlert target_pokemons move_choice t0 t m) ∧
    (∀ (s : BotState) (evs : List Event) (now : ℚ), now ≥ s.next_check_time →
      (watchdogPart s evs now).state.next_check_time = now + 10) := by
  refine ⟨?_, ?_, ?_, ?_, ?_⟩
  · intro n hal
    have h := (wdAlert_iff target_pokemons move_choice t0 t n).mp hal
    have h2 := wdNext_ge target_pokemons move_choice t0 t n
    linarith [h.1]
  · intro N hN hbefore
    rw [wdAlert_iff]
    have heq : wdNext target_pokemons move_choice t0 t N = t0 + 10 := by
      rw [wdNext_stable target_pokemons move_choice t0 t 0 N (Nat.zero_le N)
        (fun k _ hk => by rw [wdNext_zero]; exact hbefore k hk)]
      exact wdNext_zero target_pokemons move_choice t0 t
    rw [heq]
    exact ⟨hN, by linarith⟩
  · intro n m hnm han ham
    have h1 := ((wdAlert_iff target_pokemons move_choice t0 t n).mp han).1
    have h2 := ((wdAlert_iff target_pokemons move_choice t0 t m).mp ham).1
    have h3 : wdNext target_pokemons move_choice t0 t (n + 1) = t n + 10 := by
      rw [wdNext_succ, if_pos h1]
    have h4 := wdNext_le_mono target_pokemons move_choice t0 t (n + 1) m hnm
    linarith
  · intro n m hnm han hge hbetween
    have h1 := ((wdAlert_iff target_pokemons move_choice t0 t n).mp han).1
    have h3 : wdNext target_pokemons move_choice t0 t (n + 1) = t n + 10 := by
      rw [wdNext_succ, if_pos h1]
    have heq : wdNext target_pokemons move_choice t0 t m = t n + 10 := by
      rw [wdNext_stable target_pokemons move_choice t0 t (n + 1) m hnm
        (fun k hk1 hk2 => by
          rw [h3]
          exact hbetween k (Nat.lt_of_succ_le hk1) hk2)]
      exact h3
    rw [wdAlert_iff, heq]
    have hn0 : t0 ≤ t n := le_trans h0 (hmono 0 n (Nat.zero_le n))
    exact ⟨hge, by linarith⟩
  · intro s evs now h
    unfold watchdogPart
    rw [if_pos h]

/-- Witness for C2: with `t0 = 0` and ticks at the integer seconds,
the alert fires on the tick at time 10. -/
theorem claim_C2_witness :
    (∀ m n : ℕ, m ≤ n → ((m : ℚ) ≤ (n : ℚ))) ∧ ((0 : ℚ) ≤ ((0 : ℕ) : ℚ)) ∧
      wdAlert [] "1" 0 (fun k => (k : ℚ)) 10 :=
  ⟨fun m n h => by exact_mod_cast h, by norm_num,
    (claim_C2 [] "1" 0 (fun k => (k : ℚ))
        (fun m n h => by show ((m : ℚ) ≤ (n : ℚ)); exact_mod_cast h)
        (by norm_num)).2.1 10 (by norm_num)
      (fun m hm => by
        show ((m : ℚ) < 0 + 10)
        have : (m : ℚ) < 10 := by exact_mod_cast hm
        linarith)⟩

end PBO
